import Mathlib

set_option maxHeartbeats 1000000

/-!
Verification development for the population-estimation pipeline in
src/calculatePopulation.py.  The script is embedded shallowly: the single
entry point calculate_population is translated into a pure Lean function
from a World (the state of the filesystem, the network and the raster
library, which are external collaborators) to a RunResult (the ordered
trace of observable events, the files written and any uncaught Python
exception).  Cell values and coordinates are modelled as rationals;
Python int() truncation toward zero is modelled explicitly.
-/

/-- Kinds of Python exceptions that the script can raise or catch. -/
inductive PyExn
  | keyError
  | indexError
  | attributeError
  | valueError
  | rasterioIOError
  | otherError
deriving DecidableEq, Repr

/-- A JSON property value as it comes out of a GeoJSON feature via
geopandas: a string, a number, or null. -/
inductive JVal
  | str (s : String)
  | num (n : Int)
  | null
deriving DecidableEq, Repr

/-- The string Python prints for such a value. -/
def JVal.pyStr : JVal → String
  | .str s => s
  | .num n => toString n
  | .null => "None"

/-- Whether the value is a Python string (only strings have .upper()). -/
def JVal.isStr : JVal → Bool
  | .str _ => true
  | _ => false

/-- An axis-aligned rectangular polygon, the geometry shape used in this
development (coordinates are rationals). -/
structure Rect where
  xmin : ℚ
  xmax : ℚ
  ymin : ℚ
  ymax : ℚ
deriving DecidableEq, Repr

/-- One GeoJSON feature: its COUNTRY_CODE property (when the column is
present) and its geometry. -/
structure Feature where
  countryCode : Option JVal
  geom : Rect
deriving DecidableEq, Repr

/-- The parsed boundary file: the feature rows and the coordinate
reference system of the layer (none models an undefined CRS). -/
structure Boundary where
  features : List Feature
  crs : Option String
deriving DecidableEq, Repr

/-- The geometry column as a list, as in gpd_boundary.geometry.tolist(). -/
def Boundary.geoms (b : Boundary) : List Rect := b.features.map Feature.geom

/-- geopandas GeoDataFrame.to_crs: raises a ValueError when the target CRS
is missing or when the layer itself has no CRS (naive geometries cannot be
transformed); otherwise relabels the layer with the target CRS.  The
coordinate transform itself is external to the script and is kept
abstract: feature geometries are carried over unchanged. -/
def Boundary.to_crs (b : Boundary) (target : Option String) : Except PyExn Boundary :=
  match target with
  | none => .error .valueError
  | some t =>
    match b.crs with
    | none => .error .valueError
    | some _ => .ok { b with crs := some t }

/-- The raster dataset as rasterio presents it to the script: a CRS, an
optional nodata sentinel, and the behaviour of rasterio.mask.mask on a
geometry list — an external library call, modelled as an oracle returning
either an exception or the first band of the clipped image as a flat list
of cell values (already filled with the nodata sentinel outside the
shapes, as mask does). -/
structure Raster where
  crs : Option String
  nodata : Option ℚ
  maskResult : List Rect → Except PyExn (List ℚ)

/-- The external state one run of the script observes: whether the
boundary file exists, what reading it yields, the HEAD probe outcome
(none = the request raised; some none = no Last-Modified header;
some (some d) = a Last-Modified header that formats to d), whether the
local raster file already exists, whether the download succeeds, and what
rasterio.open yields. -/
structure World where
  geojsonExists : Bool
  geojsonParse : Except PyExn Boundary
  head : Option (Option String)
  rasterFileExists : Bool
  downloadOk : Bool
  openResult : Except PyExn Raster

/-- Tags for the print statements of the script, one constructor per
print site.  The constructor nodataDefaultDiagnostic does not correspond
to any print in the source: it is the diagnostic the spec (section 4.4)
expects when a missing nodata value is defaulted, declared here so that
its absence from every trace is statable. -/
inductive Msg
  | starting
  | errBoundaryMissing
  | errBoundaryRead
  | detectedCode (s : String)
  | errNoCountryCodeProp
  | errEmptyGeojson
  | targetUrl (u : String)
  | warnDateFail
  | remoteDate
  | downloadAbort
  | crsMismatchWarning
  | clipping
  | calcComplete
  | resultWritten
  | errRasterRead
  | errUnexpected
  | cleanedUp
  | nodataDefaultDiagnostic
deriving DecidableEq, Repr

/-- Observable events of a run, in program order. -/
inductive Event
  | printed (m : Msg)
  | wroteDateFile (s : String)
  | downloadAttempted
  | rasterOpened
  | rasterClosed
  | wroteOutputFile (n : Int)
  | removedRasterFile
deriving DecidableEq, Repr

/-- The outcome of one run: the event trace, the content written to
populationDate.txt and population_count.txt (none when the file was not
written), and the exception propagated out of calculate_population when
one escapes (none when the function returns normally). -/
structure RunResult where
  events : List Event
  dateFileWritten : Option String := none
  outputFileWritten : Option Int := none
  propagated : Option PyExn := none
deriving Repr

/-- Python int() applied to a real number: truncation toward zero. -/
def truncTowardZero (q : ℚ) : Int := if 0 ≤ q then ⌊q⌋ else ⌈q⌉

/-- Lines 114 to 116 of the script: keep the cells of the first band that
differ from the nodata sentinel, sum them, and apply int(). -/
def aggregate (nodata : ℚ) (band : List ℚ) : Int :=
  truncTowardZero ((band.filter (fun x => decide (x ≠ nodata))).sum)

/-- Line 80 of the script: the WorldPop URL built from the country code. -/
def rasterUrl (code : String) : String :=
  "https://data.worldpop.org/GIS/Population/Global_2000_2020/2020/"
    ++ code.toUpper ++ "/" ++ code.toLower ++ "_ppp_2020_UNadj.tif"

/-- Lines 18 to 29: format the Last-Modified date of the HEAD response;
any exception or missing header degrades to the string Unknown. -/
def get_remote_file_date_formatted (h : Option (Option String)) : String :=
  match h with
  | some (some d) => d
  | _ => "Unknown"

/-- The warning print inside get_remote_file_date_formatted, emitted only
when the HEAD request raised. -/
def dateProbeEvents (h : Option (Option String)) : List Event :=
  match h with
  | none => [.printed .warnDateFail]
  | some _ => []

/-- Which except-clause message lines 127 to 130 print for an exception
caught around the raster processing block. -/
def exnMsg : PyExn → Msg
  | .rasterioIOError => .errRasterRead
  | _ => .errUnexpected

/-- Lines 101 to 105: when the boundary CRS differs from the raster CRS,
print a warning and reproject the boundary, recomputing the geometry
list; a failed to_crs raises out of this step. -/
def reprojectStep (b : Boundary) (geoms : List Rect) (src : Raster) :
    List Event × Except PyExn (List Rect) :=
  if b.crs = src.crs then ([], .ok geoms)
  else
    match b.to_crs src.crs with
    | .error e => ([.printed .crsMismatchWarning], .error e)
    | .ok b2 => ([.printed .crsMismatchWarning], .ok b2.geoms)

/-- Lines 101 to 125, the body of the with-block: CRS reconciliation,
the clipping print, the mask call, the nodata default (lines 110 to 112,
with no diagnostic print in the source), the aggregation and the output
file write.  Returns the events of the block together with either the
final count or the exception that escaped the block. -/
def withBlock (b : Boundary) (geoms : List Rect) (src : Raster) :
    List Event × Except PyExn Int :=
  let rp := reprojectStep b geoms src
  match rp.2 with
  | .error e => (rp.1, .error e)
  | .ok geoms2 =>
    match src.maskResult geoms2 with
    | .error e => (rp.1 ++ [.printed .clipping], .error e)
    | .ok band =>
      let nodata := src.nodata.getD 0
      let final_count := aggregate nodata band
      (rp.1 ++ [.printed .clipping, .printed .calcComplete,
                .wroteOutputFile final_count, .printed .resultWritten],
       .ok final_count)

/-- Lines 99 to 135: open the raster inside try; the with-statement
closes it on the normal and on the raising path alike; the two
except-clauses print and fall through; then the cleanup block removes the
local raster file (on every path reaching it the file exists, having been
present already or just downloaded, so the exists-check of line 133 is
true). -/
def processAndCleanup (w : World) (b : Boundary) (pre : List Event)
    (dateString : String) : RunResult :=
  let geoms := b.geoms
  let core : List Event × Option Int :=
    match w.openResult with
    | .error ek => ([.printed (exnMsg ek)], none)
    | .ok src =>
      match withBlock b geoms src with
      | (ievs, .ok n) =>
        ([Event.rasterOpened] ++ ievs ++ [Event.rasterClosed], some n)
      | (ievs, .error ek) =>
        ([Event.rasterOpened] ++ ievs ++ [Event.rasterClosed, .printed (exnMsg ek)], none)
  { events := pre ++ core.1 ++ [.removedRasterFile, .printed .cleanedUp],
    dateFileWritten := some dateString,
    outputFileWritten := core.2 }

/-- Lines 91 to 94: download the raster only when the local file is
absent; a failed download prints the abort message and returns early,
skipping processing and cleanup. -/
def dlStep (w : World) (b : Boundary) (pre : List Event) (dateString : String) :
    RunResult :=
  if w.rasterFileExists then processAndCleanup w b pre dateString
  else if w.downloadOk then
    processAndCleanup w b (pre ++ [.downloadAttempted]) dateString
  else
    { events := pre ++ [.downloadAttempted, .printed .downloadAbort],
      dateFileWritten := some dateString }

/-- Lines 80 to 94 for a string country code: build the URL, probe the
date, write the date file, then the download step. -/
def strBranch (w : World) (b : Boundary) (code : String) : RunResult :=
  let url := rasterUrl code
  let dateString := get_remote_file_date_formatted w.head
  let e2 := [Event.printed .starting, .printed (.detectedCode code),
             .printed (.targetUrl url)]
            ++ dateProbeEvents w.head
            ++ [.printed .remoteDate, .wroteDateFile dateString]
  dlStep w b e2 dateString

/-- The entry point, lines 48 to 135 of src/calculatePopulation.py,
translated branch by branch.  Early returns are the branches that stop
with only their error print.  A non-string COUNTRY_CODE value reaches
line 80, where .upper() raises an AttributeError that no handler covers:
the exception propagates and nothing after line 69 is executed. -/
def calculate_population (w : World) : RunResult :=
  if w.geojsonExists = false then
    { events := [.printed .starting, .printed .errBoundaryMissing] }
  else
    match w.geojsonParse with
    | .error _ => { events := [.printed .starting, .printed .errBoundaryRead] }
    | .ok b =>
      match b.features with
      | [] => { events := [.printed .starting, .printed .errEmptyGeojson] }
      | f :: _ =>
        match f.countryCode with
        | none => { events := [.printed .starting, .printed .errNoCountryCodeProp] }
        | some v =>
          match v with
          | .str code => strBranch w b code
          | .num n =>
            { events := [.printed .starting, .printed (.detectedCode (JVal.num n).pyStr)],
              propagated := some .attributeError }
          | .null =>
            { events := [.printed .starting, .printed (.detectedCode JVal.null.pyStr)],
              propagated := some .attributeError }

/-- A reference country polygon tagged with its alpha-3 code. -/
structure RefCountry where
  code : String
  poly : Rect
deriving DecidableEq, Repr

/-- Closed containment of a point in a rectangle. -/
def Rect.containsPt (r : Rect) (p : ℚ × ℚ) : Bool :=
  decide (r.xmin ≤ p.1) && decide (p.1 ≤ r.xmax) &&
  decide (r.ymin ≤ p.2) && decide (p.2 ≤ r.ymax)

/-- Strict containment of one rectangle in another. -/
def Rect.strictlyInside (g outer : Rect) : Bool :=
  decide (outer.xmin < g.xmin) && decide (g.xmax < outer.xmax) &&
  decide (outer.ymin < g.ymin) && decide (g.ymax < outer.ymax)

/-- A representative interior point of a rectangle: its centre. -/
def repPoint (r : Rect) : ℚ × ℚ := ((r.xmin + r.xmax) / 2, (r.ymin + r.ymax) / 2)

/-- Modelled from the spec (section 4.2, absent from the source): the
Country Resolver the spec describes computes a representative interior
point of the boundary geometry and tests it for containment against every
polygon of the Reference Country Layer, returning the code of the
containing country. -/
def resolveCountry_spec (layer : List RefCountry) (g : Rect) : Option String :=
  (layer.find? (fun c => c.poly.containsPt (repPoint g))).map RefCountry.code

/-- How many reference countries strictly contain the given geometry. -/
def countStrictlyInside (layer : List RefCountry) (g : Rect) : Nat :=
  (layer.filter (fun c => g.strictlyInside c.poly)).length

/-- Modelled from the spec (section 4.5): the aggregator the spec words
describe excludes nodata cells and negative cells and floors the sum. -/
def aggregator_spec (nodata : ℚ) (band : List ℚ) : Int :=
  ⌊(band.filter (fun x => decide (x ≠ nodata) && decide (0 ≤ x))).sum⌋

/-- A small boundary geometry used by the concrete runs below. -/
def rectInner : Rect := ⟨2, 3, 2, 3⟩

/-- A reference layer with one country, FRA, covering 0..10 squared. -/
def refLayerFRA : List RefCountry := [{ code := "FRA", poly := ⟨0, 10, 0, 10⟩ }]

/-- A boundary whose COUNTRY_CODE property says ABW while its geometry
lies strictly inside the FRA reference polygon. -/
def boundaryABW : Boundary :=
  { features := [{ countryCode := some (.str "ABW"), geom := rectInner }],
    crs := some "EPSG:4326" }

/-- Like boundaryABW but with an undefined CRS. -/
def boundaryNoCrs : Boundary :=
  { features := [{ countryCode := some (.str "ABW"), geom := rectInner }],
    crs := none }

/-- A boundary whose COUNTRY_CODE property is the number 5. -/
def boundaryNum : Boundary :=
  { features := [{ countryCode := some (.num 5), geom := rectInner }],
    crs := some "EPSG:4326" }

/-- World for the country-resolution counterexample: everything after the
code extraction is irrelevant, the raster open fails. -/
def wC1 : World :=
  { geojsonExists := true, geojsonParse := .ok boundaryABW, head := some none,
    rasterFileExists := true, downloadOk := true,
    openResult := .error .rasterioIOError }

/-- A raster whose clip has one positive and one negative cell, neither
equal to the nodata sentinel. -/
def rasterC2 : Raster :=
  { crs := some "EPSG:4326", nodata := some (-1),
    maskResult := fun _ => .ok [5, -3] }

/-- World for the aggregation counterexample. -/
def wC2 : World :=
  { geojsonExists := true, geojsonParse := .ok boundaryABW,
    head := some (some "2020-01-01"), rasterFileExists := true,
    downloadOk := true, openResult := .ok rasterC2 }

/-- World for the DatasetNotFound scenario: no local raster file and the
download fails. -/
def wC3 : World :=
  { geojsonExists := true, geojsonParse := .ok boundaryABW, head := some none,
    rasterFileExists := false, downloadOk := false,
    openResult := .error .rasterioIOError }

/-- A raster with no declared nodata value and an all-zero clip. -/
def rasterC4 : Raster :=
  { crs := some "EPSG:4326", nodata := none,
    maskResult := fun _ => .ok [0, 0, 0] }

/-- World for the missing-nodata scenario. -/
def wC4 : World :=
  { geojsonExists := true, geojsonParse := .ok boundaryABW, head := some none,
    rasterFileExists := true, downloadOk := true, openResult := .ok rasterC4 }

/-- A raster with no declared nodata value and a single negative cell. -/
def rasterC5 : Raster :=
  { crs := some "EPSG:4326", nodata := none,
    maskResult := fun _ => .ok [-5] }

/-- World for the negative-estimate counterexample. -/
def wC5 : World :=
  { geojsonExists := true, geojsonParse := .ok boundaryABW, head := some none,
    rasterFileExists := true, downloadOk := true, openResult := .ok rasterC5 }

/-- A raster whose CRS is undefined, like the boundary of wC6. -/
def rasterC6 : Raster :=
  { crs := none, nodata := some (-1), maskResult := fun _ => .ok [2] }

/-- World where both the boundary CRS and the raster CRS are undefined. -/
def wC6 : World :=
  { geojsonExists := true, geojsonParse := .ok boundaryNoCrs, head := some none,
    rasterFileExists := true, downloadOk := true, openResult := .ok rasterC6 }

/-- A raster in a different CRS than boundaryABW. -/
def rasterC6b : Raster :=
  { crs := some "ESRI:54009", nodata := some (-1),
    maskResult := fun _ => .ok [7] }

/-- World with a genuine CRS mismatch between boundary and raster. -/
def wC6b : World :=
  { geojsonExists := true, geojsonParse := .ok boundaryABW, head := some none,
    rasterFileExists := true, downloadOk := true, openResult := .ok rasterC6b }

/-- A raster whose clip is entirely nodata. -/
def rasterC7 : Raster :=
  { crs := some "EPSG:4326", nodata := some (-1),
    maskResult := fun _ => .ok [-1, -1] }

/-- World for the all-nodata clip scenario. -/
def wC7 : World :=
  { geojsonExists := true, geojsonParse := .ok boundaryABW, head := some none,
    rasterFileExists := true, downloadOk := true, openResult := .ok rasterC7 }

/-- World whose boundary carries a numeric COUNTRY_CODE property. -/
def wC10 : World :=
  { geojsonExists := true, geojsonParse := .ok boundaryNum, head := some none,
    rasterFileExists := true, downloadOk := true, openResult := .ok rasterC2 }

/-- The COUNTRY_CODE value of the first feature that line 67 of the script
would read, when the boundary parses and has at least one feature. -/
def firstCode (w : World) : Option JVal :=
  match w.geojsonParse with
  | .ok b =>
    match b.features with
    | f :: _ => f.countryCode
    | [] => none
  | .error _ => none

/-! Helper lemmas shared by the claim theorems below. -/

/-- When the boundary file exists, parses, has a first feature and that
feature carries a string COUNTRY_CODE, the run reduces to the string
branch. -/
theorem run_eq_strBranch (w : World) (b : Boundary) (f : Feature) (fs : List Feature)
    (code : String) (hex : w.geojsonExists = true) (hp : w.geojsonParse = .ok b)
    (hf : b.features = f :: fs) (hc : f.countryCode = some (.str code)) :
    calculate_population w = strBranch w b code := by
  unfold calculate_population
  simp only [hex, hp, hf, hc]
  simp

/-- With matching CRSs and a successful mask call, the with-block
produces the aggregate of the band. -/
theorem withBlock_ok (b : Boundary) (g : List Rect) (src : Raster) (band : List ℚ)
    (hcrs : b.crs = src.crs) (hm : src.maskResult g = .ok band) :
    withBlock b g src =
      ([.printed .clipping, .printed .calcComplete,
        .wroteOutputFile (aggregate (src.nodata.getD 0) band), .printed .resultWritten],
       .ok (aggregate (src.nodata.getD 0) band)) := by
  unfold withBlock reprojectStep
  simp [hcrs, hm]

/-- Output of the processing step on the matching-CRS success path. -/
theorem processAndCleanup_output (w : World) (b : Boundary) (pre : List Event)
    (ds : String) (src : Raster) (band : List ℚ)
    (ho : w.openResult = .ok src) (hcrs : b.crs = src.crs)
    (hm : src.maskResult b.geoms = .ok band) :
    (processAndCleanup w b pre ds).outputFileWritten
      = some (aggregate (src.nodata.getD 0) band) := by
  unfold processAndCleanup
  simp only [ho, withBlock_ok b b.geoms src band hcrs hm]

/-- Full-pipeline output on the success path with matching CRSs. -/
theorem run_output_of_processing (w : World) (b : Boundary) (f : Feature)
    (fs : List Feature) (code : String) (src : Raster) (band : List ℚ)
    (hex : w.geojsonExists = true) (hp : w.geojsonParse = .ok b)
    (hf : b.features = f :: fs) (hc : f.countryCode = some (.str code))
    (hrf : w.rasterFileExists = true) (ho : w.openResult = .ok src)
    (hcrs : b.crs = src.crs) (hm : src.maskResult b.geoms = .ok band) :
    (calculate_population w).outputFileWritten
      = some (aggregate (src.nodata.getD 0) band) := by
  rw [run_eq_strBranch w b f fs code hex hp hf hc]
  unfold strBranch dlStep
  simp only [hrf, if_true]
  exact processAndCleanup_output w b _ _ src band ho hcrs hm

/-- The reprojection step emits at most the CRS warning. -/
theorem reprojectStep_fst (b : Boundary) (g : List Rect) (src : Raster) :
    (reprojectStep b g src).1 = [] ∨
    (reprojectStep b g src).1 = [Event.printed .crsMismatchWarning] := by
  unfold reprojectStep
  split
  · exact Or.inl rfl
  · split <;> exact Or.inr rfl

/-- The with-block never emits a raster-open event. -/
theorem withBlock_no_open (b : Boundary) (g : List Rect) (src : Raster) :
    Event.rasterOpened ∉ (withBlock b g src).1 := by
  intro he
  simp only [withBlock] at he
  rcases h2 : (reprojectStep b g src).2 with ex | g2 <;> rw [h2] at he <;> dsimp only at he
  · rcases reprojectStep_fst b g src with h1 | h1 <;> rw [h1] at he <;> simp at he
  · rcases h3 : src.maskResult g2 with ex2 | band <;> rw [h3] at he <;> dsimp only at he <;>
      rcases reprojectStep_fst b g src with h1 | h1 <;> rw [h1] at he <;> simp at he

/-- The with-block never emits a raster-close event. -/
theorem withBlock_no_close (b : Boundary) (g : List Rect) (src : Raster) :
    Event.rasterClosed ∉ (withBlock b g src).1 := by
  intro he
  simp only [withBlock] at he
  rcases h2 : (reprojectStep b g src).2 with ex | g2 <;> rw [h2] at he <;> dsimp only at he
  · rcases reprojectStep_fst b g src with h1 | h1 <;> rw [h1] at he <;> simp at he
  · rcases h3 : src.maskResult g2 with ex2 | band <;> rw [h3] at he <;> dsimp only at he <;>
      rcases reprojectStep_fst b g src with h1 | h1 <;> rw [h1] at he <;> simp at he

/-- The with-block never emits a download event. -/
theorem withBlock_no_download (b : Boundary) (g : List Rect) (src : Raster) :
    Event.downloadAttempted ∉ (withBlock b g src).1 := by
  intro he
  simp only [withBlock] at he
  rcases h2 : (reprojectStep b g src).2 with ex | g2 <;> rw [h2] at he <;> dsimp only at he
  · rcases reprojectStep_fst b g src with h1 | h1 <;> rw [h1] at he <;> simp at he
  · rcases h3 : src.maskResult g2 with ex2 | band <;> rw [h3] at he <;> dsimp only at he <;>
      rcases reprojectStep_fst b g src with h1 | h1 <;> rw [h1] at he <;> simp at he

/-- The with-block never emits the spec-expected nodata diagnostic. -/
theorem withBlock_no_diag (b : Boundary) (g : List Rect) (src : Raster) :
    Event.printed .nodataDefaultDiagnostic ∉ (withBlock b g src).1 := by
  intro he
  simp only [withBlock] at he
  rcases h2 : (reprojectStep b g src).2 with ex | g2 <;> rw [h2] at he <;> dsimp only at he
  · rcases reprojectStep_fst b g src with h1 | h1 <;> rw [h1] at he <;> simp at he
  · rcases h3 : src.maskResult g2 with ex2 | band <;> rw [h3] at he <;> dsimp only at he <;>
      rcases reprojectStep_fst b g src with h1 | h1 <;> rw [h1] at he <;> simp at he

/-- The date-probe warning is the only event the probe can emit. -/
theorem dateProbeEvents_sub (h : Option (Option String)) :
    ∀ e ∈ dateProbeEvents h, e = Event.printed .warnDateFail := by
  cases h <;> simp [dateProbeEvents]

/-- Open and close events of the processing step are balanced whenever the
preceding trace has neither. -/
theorem processAndCleanup_balance (w : World) (b : Boundary) (pre : List Event) (ds : String)
    (h1 : Event.rasterOpened ∉ pre) (h2 : Event.rasterClosed ∉ pre) :
    ((processAndCleanup w b pre ds).events.count Event.rasterOpened
      = (processAndCleanup w b pre ds).events.count Event.rasterClosed) ∧
    (Event.rasterOpened ∈ (processAndCleanup w b pre ds).events ↔
      Event.rasterClosed ∈ (processAndCleanup w b pre ds).events) := by
  have c1 : pre.count Event.rasterOpened = 0 := List.count_eq_zero.mpr h1
  have c2 : pre.count Event.rasterClosed = 0 := List.count_eq_zero.mpr h2
  unfold processAndCleanup
  rcases ho : w.openResult with ek | src <;> dsimp only
  · constructor
    · simp [List.count_append, List.count_cons, c1, c2]
    · simp [h1, h2]
  · rcases hwb : withBlock b b.geoms src with ⟨ievs, res⟩
    have hie : ievs = (withBlock b b.geoms src).1 := by rw [hwb]
    have i1 : Event.rasterOpened ∉ ievs := hie ▸ withBlock_no_open b b.geoms src
    have i2 : Event.rasterClosed ∉ ievs := hie ▸ withBlock_no_close b b.geoms src
    have ci1 : ievs.count Event.rasterOpened = 0 := List.count_eq_zero.mpr i1
    have ci2 : ievs.count Event.rasterClosed = 0 := List.count_eq_zero.mpr i2
    rcases res with ek | n <;> dsimp only <;> constructor
    · simp [List.count_append, List.count_cons, c1, c2, ci1, ci2]
    · simp [h1, h2, i1, i2]
    · simp [List.count_append, List.count_cons, c1, c2, ci1, ci2]
    · simp [h1, h2, i1, i2]

/-- Open and close events of the download step are balanced whenever the
preceding trace has neither. -/
theorem dlStep_balance (w : World) (b : Boundary) (pre : List Event) (ds : String)
    (h1 : Event.rasterOpened ∉ pre) (h2 : Event.rasterClosed ∉ pre) :
    ((dlStep w b pre ds).events.count Event.rasterOpened
      = (dlStep w b pre ds).events.count Event.rasterClosed) ∧
    (Event.rasterOpened ∈ (dlStep w b pre ds).events ↔
      Event.rasterClosed ∈ (dlStep w b pre ds).events) := by
  unfold dlStep
  split
  · exact processAndCleanup_balance w b pre ds h1 h2
  · split
    · refine processAndCleanup_balance w b _ ds ?_ ?_ <;> simp [h1, h2]
    · constructor
      · simp [List.count_append, List.count_cons, List.count_eq_zero.mpr h1,
          List.count_eq_zero.mpr h2]
      · simp [h1, h2]

/-- The download step never sets a propagated exception. -/
theorem dlStep_propagated (w : World) (b : Boundary) (pre : List Event) (ds : String) :
    (dlStep w b pre ds).propagated = none := by
  unfold dlStep processAndCleanup
  split
  · rfl
  · split <;> rfl

/-- With the local raster file present, the download step is skipped. -/
theorem dlStep_skips_download (w : World) (b : Boundary) (pre : List Event) (ds : String)
    (h : w.rasterFileExists = true) :
    dlStep w b pre ds = processAndCleanup w b pre ds := by
  simp [dlStep, h]

/-- Events before the download step survive into the final trace. -/
theorem dlStep_pre_mem (w : World) (b : Boundary) (pre : List Event) (ds : String)
    (e : Event) (he : e ∈ pre) : e ∈ (dlStep w b pre ds).events := by
  unfold dlStep processAndCleanup
  split
  · dsimp only; simp [he]
  · split <;> dsimp only <;> simp [he]

/-- The processing step introduces no download event. -/
theorem processAndCleanup_no_download (w : World) (b : Boundary) (pre : List Event)
    (ds : String) (hp : Event.downloadAttempted ∉ pre) :
    Event.downloadAttempted ∉ (processAndCleanup w b pre ds).events := by
  unfold processAndCleanup
  rcases ho : w.openResult with ek | src <;> dsimp only
  · simp [hp]
  · rcases hwb : withBlock b b.geoms src with ⟨ievs, res⟩
    have hie : ievs = (withBlock b b.geoms src).1 := by rw [hwb]
    have i := hie ▸ withBlock_no_download b b.geoms src
    rcases res with ek | n <;> dsimp only <;> simp [hp, i]

/-- The processing step introduces no nodata diagnostic. -/
theorem processAndCleanup_no_diag (w : World) (b : Boundary) (pre : List Event)
    (ds : String) (hp : Event.printed .nodataDefaultDiagnostic ∉ pre) :
    Event.printed .nodataDefaultDiagnostic ∉ (processAndCleanup w b pre ds).events := by
  unfold processAndCleanup
  rcases ho : w.openResult with ek | src <;> dsimp only
  · simp [hp]
    cases ek <;> simp [exnMsg]
  · rcases hwb : withBlock b b.geoms src with ⟨ievs, res⟩
    have hie : ievs = (withBlock b b.geoms src).1 := by rw [hwb]
    have i := hie ▸ withBlock_no_diag b b.geoms src
    rcases res with ek | n <;> dsimp only <;> simp [hp, i]
    cases ek <;> simp [exnMsg]

/-- When the raster opens, the trace records the open event. -/
theorem processAndCleanup_opened (w : World) (b : Boundary) (pre : List Event)
    (ds : String) (src : Raster) (ho : w.openResult = .ok src) :
    Event.rasterOpened ∈ (processAndCleanup w b pre ds).events := by
  unfold processAndCleanup
  simp only [ho]
  rcases hwb : withBlock b b.geoms src with ⟨ievs, res⟩
  rcases res with ek | n <;> dsimp only <;> simp

/-- The download step introduces no nodata diagnostic. -/
theorem dlStep_no_diag (w : World) (b : Boundary) (pre : List Event) (ds : String)
    (hp : Event.printed .nodataDefaultDiagnostic ∉ pre) :
    Event.printed .nodataDefaultDiagnostic ∉ (dlStep w b pre ds).events := by
  unfold dlStep
  split
  · exact processAndCleanup_no_diag w b pre ds hp
  · split
    · refine processAndCleanup_no_diag w b _ ds ?_
      simp [hp]
    · simp [hp]

/-- No run of the script ever prints the nodata-default diagnostic that
the spec expects: the sentinel substitution of lines 110 to 112 is
silent. -/
theorem run_no_nodata_diag (w : World) :
    Event.printed .nodataDefaultDiagnostic ∉ (calculate_population w).events := by
  have hdp : Event.printed Msg.nodataDefaultDiagnostic ∉ dateProbeEvents w.head := by
    intro h
    have := dateProbeEvents_sub w.head _ h
    simp at this
  unfold calculate_population
  split
  · simp
  · split
    · simp
    · split
      · simp
      · split
        · simp
        · split
          · unfold strBranch
            dsimp only
            refine dlStep_no_diag _ _ _ _ ?_
            simp [hdp]
          · simp
          · simp

/-- An all-nodata band aggregates to zero. -/
theorem aggregate_all_nodata (nodata : ℚ) (band : List ℚ)
    (h : ∀ x ∈ band, x = nodata) : aggregate nodata band = 0 := by
  unfold aggregate
  have hf : band.filter (fun x => decide (x ≠ nodata)) = [] := by
    rw [List.filter_eq_nil_iff]
    intro x hx
    simp [h x hx]
  rw [hf]
  simp [truncTowardZero]

/-- A band whose kept cells are non-negative aggregates non-negatively. -/
theorem aggregate_nonneg (nodata : ℚ) (band : List ℚ)
    (h : ∀ x ∈ band, x ≠ nodata → 0 ≤ x) : 0 ≤ aggregate nodata band := by
  unfold aggregate truncTowardZero
  have hs : 0 ≤ (band.filter (fun x => decide (x ≠ nodata))).sum := by
    apply List.sum_nonneg
    intro x hx
    rcases List.mem_filter.mp hx with ⟨hx1, hx2⟩
    exact h x hx1 (of_decide_eq_true hx2)
  rw [if_pos hs]
  exact Int.le_floor.mpr (by exact_mod_cast hs)

/-- With differing defined CRSs and a successful mask, the with-block
reprojects, warns, and aggregates the band of the same raster. -/
theorem withBlock_crs_mismatch (b : Boundary) (g : List Rect) (src : Raster)
    (cb cr : String) (band : List ℚ)
    (hb : b.crs = some cb) (hs : src.crs = some cr) (hne : cb ≠ cr)
    (hm : src.maskResult b.geoms = .ok band) :
    withBlock b g src =
      ([.printed .crsMismatchWarning, .printed .clipping, .printed .calcComplete,
        .wroteOutputFile (aggregate (src.nodata.getD 0) band), .printed .resultWritten],
       .ok (aggregate (src.nodata.getD 0) band)) := by
  have hgeq : Boundary.geoms { b with crs := some cr } = b.geoms := rfl
  unfold withBlock reprojectStep Boundary.to_crs
  rw [hb, hs]
  have hcond : (some cb = some cr) = False := by simp [hne]
  simp [hcond, hgeq, hm]

/-- With differing defined CRSs the warning is emitted whatever the mask
call then does. -/
theorem withBlock_warning_mem (b : Boundary) (g : List Rect) (src : Raster)
    (cb cr : String) (hb : b.crs = some cb) (hs : src.crs = some cr) (hne : cb ≠ cr) :
    Event.printed .crsMismatchWarning ∈ (withBlock b g src).1 := by
  unfold withBlock reprojectStep Boundary.to_crs
  rw [hb, hs]
  have hcond : (some cb = some cr) = False := by simp [hne]
  rcases hmm : src.maskResult (Boundary.geoms { b with crs := some cr }) with e | band <;>
    simp [hcond, hmm]

/-- An undefined vector CRS facing a defined raster CRS makes the
reprojection raise, escaping the with-block. -/
theorem withBlock_vector_crs_none (b : Boundary) (g : List Rect) (src : Raster)
    (cr : String) (hb : b.crs = none) (hs : src.crs = some cr) :
    withBlock b g src = ([.printed .crsMismatchWarning], .error .valueError) := by
  unfold withBlock reprojectStep Boundary.to_crs
  rw [hb, hs]
  simp

/-- Events of the with-block survive into the processing-step trace. -/
theorem processAndCleanup_mem_of_withBlock (w : World) (b : Boundary) (pre : List Event)
    (ds : String) (src : Raster) (e : Event) (ho : w.openResult = .ok src)
    (hwbm : e ∈ (withBlock b b.geoms src).1) :
    e ∈ (processAndCleanup w b pre ds).events := by
  unfold processAndCleanup
  simp only [ho]
  rcases hwb : withBlock b b.geoms src with ⟨ievs, res⟩
  rw [hwb] at hwbm
  rcases res with ek | n <;> dsimp only <;> simp at hwbm ⊢ <;> simp [hwbm]

/-- Output of the processing step on the reprojection path. -/
theorem processAndCleanup_mismatch (w : World) (b : Boundary) (pre : List Event)
    (ds : String) (src : Raster) (band : List ℚ) (cb cr : String)
    (ho : w.openResult = .ok src) (hb : b.crs = some cb) (hs : src.crs = some cr)
    (hne : cb ≠ cr) (hm : src.maskResult b.geoms = .ok band) :
    (processAndCleanup w b pre ds).outputFileWritten
        = some (aggregate (src.nodata.getD 0) band) := by
  unfold processAndCleanup
  simp only [ho, withBlock_crs_mismatch b b.geoms src cb cr band hb hs hne hm]

/-- With an undefined vector CRS and a defined raster CRS the processing
step catches the reprojection error: no output, generic message. -/
theorem processAndCleanup_crs_none (w : World) (b : Boundary) (pre : List Event)
    (ds : String) (src : Raster) (cr : String)
    (ho : w.openResult = .ok src) (hb : b.crs = none) (hs : src.crs = some cr) :
    (processAndCleanup w b pre ds).outputFileWritten = none ∧
    Event.printed .errUnexpected ∈ (processAndCleanup w b pre ds).events := by
  unfold processAndCleanup
  simp only [ho, withBlock_vector_crs_none b b.geoms src cr hb hs]
  refine ⟨by trivial, by simp [exnMsg]⟩

/-! Claim C1: country resolution. -/

/-- C1 counterexample: a boundary whose geometry lies strictly inside
exactly one reference country (FRA) but whose COUNTRY_CODE property says
ABW.  The spec-modelled containment resolver returns FRA, while the run
of the script detects and uses ABW: the script performs no containment
test at all. -/
theorem countryResolver_containment_counterexample :
    countStrictlyInside refLayerFRA rectInner = 1 ∧
    resolveCountry_spec refLayerFRA rectInner = some "FRA" ∧
    Event.printed (.detectedCode "ABW") ∈ (calculate_population wC1).events ∧
    Event.printed (.targetUrl (rasterUrl "ABW")) ∈ (calculate_population wC1).events ∧
    "ABW" ≠ "FRA" := by
  refine ⟨?_, ?_, ?_, ?_, by decide⟩ <;>
  norm_num [countStrictlyInside, resolveCountry_spec, refLayerFRA, rectInner,
    Rect.strictlyInside, Rect.containsPt, repPoint, List.find?, calculate_population,
    wC1, boundaryABW, strBranch, dlStep, processAndCleanup, withBlock, reprojectStep,
    dateProbeEvents, get_remote_file_date_formatted, exnMsg]

/-- C1 amended: the Country Resolver of the script reads the COUNTRY_CODE
property of the first feature of the boundary file and deterministically
uses that string for the country dataset (printed and embedded in the
target URL); no representative point is computed and no point-in-polygon
test against a reference layer is performed. -/
theorem countryResolver_reads_first_feature_code (w : World) (b : Boundary) (f : Feature)
    (fs : List Feature) (code : String)
    (hex : w.geojsonExists = true) (hp : w.geojsonParse = .ok b)
    (hf : b.features = f :: fs) (hc : f.countryCode = some (.str code)) :
    Event.printed (.detectedCode code) ∈ (calculate_population w).events ∧
    Event.printed (.targetUrl (rasterUrl code)) ∈ (calculate_population w).events := by
  rw [run_eq_strBranch w b f fs code hex hp hf hc]
  unfold strBranch
  dsimp only
  constructor <;> refine dlStep_pre_mem _ _ _ _ _ ?_ <;> simp

/-- C1 witness: the amended theorem applied to the concrete ABW world. -/
theorem countryResolver_reads_first_feature_code_witness :
    Event.printed (.detectedCode "ABW") ∈ (calculate_population wC1).events ∧
    Event.printed (.targetUrl (rasterUrl "ABW")) ∈ (calculate_population wC1).events :=
  countryResolver_reads_first_feature_code wC1 boundaryABW
    { countryCode := some (.str "ABW"), geom := rectInner } [] "ABW" rfl rfl rfl rfl

/-! Claim C2: the aggregation rule. -/

/-- C2 counterexample: a clip with cells 5 and -3 and nodata -1.  The
aggregator the spec describes (exclude nodata and negatives, floor)
yields 5, but the run writes 2: negative cells are summed, not
excluded. -/
theorem aggregator_negative_cells_counterexample :
    (calculate_population wC2).outputFileWritten = some 2 ∧
    aggregator_spec (-1) [5, -3] = 5 ∧ (2 : Int) ≠ 5 := by
  refine ⟨?_, ?_, by decide⟩ <;>
  norm_num [calculate_population, wC2, boundaryABW, rasterC2, strBranch, dlStep,
    processAndCleanup, withBlock, reprojectStep, aggregate, truncTowardZero,
    aggregator_spec, get_remote_file_date_formatted]

/-- C2 amended: for every successfully clipped raster the pipeline sums
exactly those cells of the first band that are not equal to the nodata
sentinel — negative cells included — and truncates the sum toward zero
(which for a negative sum rounds up, not down) before writing it. -/
theorem aggregator_sums_non_nodata_trunc_toward_zero (w : World) (b : Boundary)
    (f : Feature) (fs : List Feature) (code : String) (src : Raster) (band : List ℚ)
    (hex : w.geojsonExists = true) (hp : w.geojsonParse = .ok b)
    (hf : b.features = f :: fs) (hc : f.countryCode = some (.str code))
    (hrf : w.rasterFileExists = true) (ho : w.openResult = .ok src)
    (hcrs : b.crs = src.crs) (hm : src.maskResult b.geoms = .ok band) :
    (calculate_population w).outputFileWritten
      = some (truncTowardZero
          ((band.filter (fun x => decide (x ≠ src.nodata.getD 0))).sum)) := by
  exact run_output_of_processing w b f fs code src band hex hp hf hc hrf ho hcrs hm

/-- C2 witness: the amended theorem applied to the concrete 5, -3 band,
evaluating to 2. -/
theorem aggregator_sums_non_nodata_trunc_toward_zero_witness :
    (calculate_population wC2).outputFileWritten = some 2 := by
  have h := aggregator_sums_non_nodata_trunc_toward_zero wC2 boundaryABW
    { countryCode := some (.str "ABW"), geom := rectInner } [] "ABW" rasterC2 [5, -3]
    rfl rfl rfl rfl rfl rfl rfl rfl
  rw [h]
  norm_num [truncTowardZero, rasterC2]

/-! Claim C3: failing closed. -/

/-- C3 counterexample: in the DatasetNotFound scenario (no local raster,
download fails) the date output file populationDate.txt has already been
written — the claim that no output file is written is too strong. -/
theorem datasetNotFound_writes_date_file_counterexample :
    (calculate_population wC3).dateFileWritten = some "Unknown" ∧
    Event.wroteDateFile "Unknown" ∈ (calculate_population wC3).events ∧
    (calculate_population wC3).outputFileWritten = none := by
  norm_num [calculate_population, wC3, boundaryABW, strBranch, dlStep,
    dateProbeEvents, get_remote_file_date_formatted]

/-- Inversion of the with-block: a final count is produced only when the
reprojection and the mask call both succeed, and it is the aggregate of
the masked band. -/
theorem withBlock_ok_inv (b : Boundary) (g : List Rect) (src : Raster) (n : Int)
    (h : (withBlock b g src).2 = .ok n) :
    ∃ geoms2 band, (reprojectStep b g src).2 = .ok geoms2 ∧
      src.maskResult geoms2 = .ok band ∧ n = aggregate (src.nodata.getD 0) band := by
  simp only [withBlock] at h
  rcases h2 : (reprojectStep b g src).2 with ex | g2 <;> rw [h2] at h <;> dsimp only at h
  · simp at h
  · rcases h3 : src.maskResult g2 with ex2 | band <;> rw [h3] at h <;> dsimp only at h
    · simp at h
    · simp at h
      exact ⟨g2, band, rfl, h3, h.symm⟩

/-- Inversion of the processing step: the population output exists only
when the raster opened and the with-block completed with that count. -/
theorem processAndCleanup_output_inv (w : World) (b : Boundary) (pre : List Event)
    (ds : String) (n : Int)
    (h : (processAndCleanup w b pre ds).outputFileWritten = some n) :
    ∃ src, w.openResult = .ok src ∧ (withBlock b b.geoms src).2 = .ok n := by
  unfold processAndCleanup at h
  rcases ho : w.openResult with ek | src <;> rw [ho] at h <;> dsimp only at h
  · simp at h
  · rcases hwb : withBlock b b.geoms src with ⟨ievs, res⟩
    rw [hwb] at h
    rcases res with ek | m <;> dsimp only at h
    · simp at h
    · simp at h
      exact ⟨src, rfl, by rw [hwb, h]⟩

/-- Inversion of the download step: the population output exists only
when the local file was present or the download succeeded, and the
processing then completed. -/
theorem dlStep_output_inv (w : World) (b : Boundary) (pre : List Event) (ds : String)
    (n : Int) (h : (dlStep w b pre ds).outputFileWritten = some n) :
    (w.rasterFileExists = true ∨ w.downloadOk = true) ∧
    ∃ src, w.openResult = .ok src ∧ (withBlock b b.geoms src).2 = .ok n := by
  unfold dlStep at h
  split at h
  · rename_i hrf
    exact ⟨Or.inl hrf, processAndCleanup_output_inv w b pre ds n h⟩
  · split at h
    · rename_i hdl
      exact ⟨Or.inr hdl, processAndCleanup_output_inv w b _ ds n h⟩
    · simp at h

/-- C3 amended: the pipeline fails closed for every stage.  First part:
whenever the population output file is written, every stage succeeded —
the boundary file existed and parsed, a first feature carried a string
COUNTRY_CODE, the raster was cached or downloaded, it opened, the
reprojection and the mask call succeeded — and the written value is the
aggregate of the masked band; contrapositively, a failure of any of
these stages (parse error, missing property, DatasetNotFound, open
failure, reprojection failure, mask failure, or a propagating
non-string code) leaves population_count.txt unwritten.  Second part:
in the DatasetNotFound scenario specifically, the run stops before the
raster is opened, yet the date output file has already been written
with the probe result — the probe is the one stage that degrades (to
Unknown) instead of aborting. -/
theorem pipeline_fails_closed (w : World) :
    (∀ n : Int, (calculate_population w).outputFileWritten = some n →
      (w.geojsonExists = true ∧
       ∃ (b : Boundary) (f : Feature) (fs : List Feature) (code : String)
         (src : Raster) (geoms2 : List Rect) (band : List ℚ),
         w.geojsonParse = .ok b ∧ b.features = f :: fs ∧
         f.countryCode = some (.str code) ∧
         (w.rasterFileExists = true ∨ w.downloadOk = true) ∧
         w.openResult = .ok src ∧
         (reprojectStep b b.geoms src).2 = .ok geoms2 ∧
         src.maskResult geoms2 = .ok band ∧
         n = aggregate (src.nodata.getD 0) band)) ∧
    (∀ (b : Boundary) (f : Feature) (fs : List Feature) (code : String),
      w.geojsonExists = true → w.geojsonParse = .ok b →
      b.features = f :: fs → f.countryCode = some (.str code) →
      w.rasterFileExists = false → w.downloadOk = false →
      ((calculate_population w).outputFileWritten = none ∧
       (calculate_population w).dateFileWritten
         = some (get_remote_file_date_formatted w.head) ∧
       Event.printed .downloadAbort ∈ (calculate_population w).events ∧
       Event.rasterOpened ∉ (calculate_population w).events)) := by
  constructor
  · intro n hout
    obtain ⟨ge, gp, hd, rf, dl, op⟩ := w
    cases ge
    · simp [calculate_population] at hout
    · cases gp with
      | error e => simp [calculate_population] at hout
      | ok b =>
        obtain ⟨feats, bcrs⟩ := b
        cases feats with
        | nil => simp [calculate_population] at hout
        | cons f fs =>
          obtain ⟨cc, g⟩ := f
          cases cc with
          | none => simp [calculate_population] at hout
          | some v =>
            cases v with
            | str code =>
              have hout2 : (dlStep ⟨true, .ok ⟨⟨some (.str code), g⟩ :: fs, bcrs⟩,
                  hd, rf, dl, op⟩ ⟨⟨some (.str code), g⟩ :: fs, bcrs⟩ _
                  (get_remote_file_date_formatted hd)).outputFileWritten = some n := hout
              obtain ⟨hdlok, src, ho, hwb⟩ := dlStep_output_inv _ _ _ _ n hout2
              obtain ⟨geoms2, band, hrp, hmk, hn⟩ := withBlock_ok_inv _ _ src n hwb
              exact ⟨rfl, ⟨⟨some (.str code), g⟩ :: fs, bcrs⟩, ⟨some (.str code), g⟩,
                fs, code, src, geoms2, band, rfl, rfl, rfl, hdlok, ho, hrp, hmk, hn⟩
            | num m => simp [calculate_population] at hout
            | null => simp [calculate_population] at hout
  · intro b f fs code hex hp hf hc hrf hdl
    have hdp : Event.rasterOpened ∉ dateProbeEvents w.head := by
      intro h
      have := dateProbeEvents_sub w.head _ h
      simp at this
    rw [run_eq_strBranch w b f fs code hex hp hf hc]
    unfold strBranch dlStep
    simp only [hrf, hdl]
    refine ⟨rfl, rfl, by simp, ?_⟩
    simp [hdp]

/-- C3 witness: the fail-closed theorem applied twice — its inversion
part at the successful world wC2 (whose written count 2 certifies every
stage succeeded) and its scenario part at the failing world wC3. -/
theorem pipeline_fails_closed_witness :
    (∃ (b : Boundary) (f : Feature) (fs : List Feature) (code : String)
       (src : Raster) (geoms2 : List Rect) (band : List ℚ),
       wC2.geojsonParse = .ok b ∧ b.features = f :: fs ∧
       f.countryCode = some (.str code) ∧
       (wC2.rasterFileExists = true ∨ wC2.downloadOk = true) ∧
       wC2.openResult = .ok src ∧
       (reprojectStep b b.geoms src).2 = .ok geoms2 ∧
       src.maskResult geoms2 = .ok band ∧
       (2 : Int) = aggregate (src.nodata.getD 0) band) ∧
    ((calculate_population wC3).outputFileWritten = none ∧
     (calculate_population wC3).dateFileWritten
       = some (get_remote_file_date_formatted wC3.head) ∧
     Event.printed .downloadAbort ∈ (calculate_population wC3).events ∧
     Event.rasterOpened ∉ (calculate_population wC3).events) := by
  constructor
  · refine ((pipeline_fails_closed wC2).1 2 ?_).2
    norm_num [calculate_population, wC2, boundaryABW, rasterC2, strBranch, dlStep,
      processAndCleanup, withBlock, reprojectStep, aggregate, truncTowardZero,
      get_remote_file_date_formatted]
  · exact (pipeline_fails_closed wC3).2 boundaryABW
      { countryCode := some (.str "ABW"), geom := rectInner } [] "ABW"
      rfl rfl rfl rfl rfl rfl

/-! Claim C4: missing nodata value. -/

/-- C4 counterexample: a raster with no declared nodata and an all-zero
clip aggregates to 0 without a fault, but no diagnostic about the
defaulted sentinel appears anywhere in the trace — the substitution of
lines 110 to 112 is silent, against the claim. -/
theorem nodata_default_no_diagnostic_counterexample :
    (calculate_population wC4).outputFileWritten = some 0 ∧
    (calculate_population wC4).propagated = none ∧
    Event.printed .nodataDefaultDiagnostic ∉ (calculate_population wC4).events := by
  norm_num [calculate_population, wC4, boundaryABW, rasterC4, strBranch, dlStep,
    processAndCleanup, withBlock, reprojectStep, aggregate, truncTowardZero,
    dateProbeEvents, get_remote_file_date_formatted]
  decide

/-- C4 amended: if the raster declares no nodata value the script
substitutes the default sentinel zero silently: an undefined-nodata
raster whose cells are all 0 yields the aggregate 0 with no thrown
fault, and no diagnostic about the substitution is ever emitted. -/
theorem nodata_default_zero_silently (w : World) (b : Boundary)
    (f : Feature) (fs : List Feature) (code : String) (src : Raster) (band : List ℚ)
    (hex : w.geojsonExists = true) (hp : w.geojsonParse = .ok b)
    (hf : b.features = f :: fs) (hc : f.countryCode = some (.str code))
    (hrf : w.rasterFileExists = true) (ho : w.openResult = .ok src)
    (hnod : src.nodata = none) (hcrs : b.crs = src.crs)
    (hm : src.maskResult b.geoms = .ok band) (hz : ∀ x ∈ band, x = 0) :
    (calculate_population w).outputFileWritten = some 0 ∧
    (calculate_population w).propagated = none ∧
    Event.printed .nodataDefaultDiagnostic ∉ (calculate_population w).events := by
  refine ⟨?_, ?_, run_no_nodata_diag w⟩
  · rw [run_output_of_processing w b f fs code src band hex hp hf hc hrf ho hcrs hm]
    have : aggregate (src.nodata.getD 0) band = 0 := by
      apply aggregate_all_nodata
      intro x hx
      rw [hnod]
      exact hz x hx
    rw [this]
  · rw [run_eq_strBranch w b f fs code hex hp hf hc]
    unfold strBranch
    dsimp only
    exact dlStep_propagated _ _ _ _

/-- C4 witness: the amended theorem applied to the undefined-nodata
all-zero world. -/
theorem nodata_default_zero_silently_witness :
    (calculate_population wC4).outputFileWritten = some 0 ∧
    (calculate_population wC4).propagated = none ∧
    Event.printed .nodataDefaultDiagnostic ∉ (calculate_population wC4).events :=
  nodata_default_zero_silently wC4 boundaryABW
    { countryCode := some (.str "ABW"), geom := rectInner } [] "ABW" rasterC4 [0, 0, 0]
    rfl rfl rfl rfl rfl rfl rfl rfl rfl (by decide)

/-! Claim C5: non-negativity of the estimate. -/

/-- C5 counterexample: a band with a single cell -5 and no declared
nodata produces the written estimate -5, a negative integer. -/
theorem estimate_can_be_negative_counterexample :
    (calculate_population wC5).outputFileWritten = some (-5) ∧ (-5 : Int) < 0 := by
  norm_num [calculate_population, wC5, boundaryABW, rasterC5, strBranch, dlStep,
    processAndCleanup, withBlock, reprojectStep, aggregate, truncTowardZero,
    dateProbeEvents, get_remote_file_date_formatted, Int.ceil_neg]

/-- C5 amended: the written estimate is a single integer, and it is
non-negative whenever every cell of the clipped band that differs from
the nodata sentinel is non-negative; bands with negative non-nodata
cells can make it negative. -/
theorem estimate_nonneg_when_cells_nonneg (w : World) (b : Boundary)
    (f : Feature) (fs : List Feature) (code : String) (src : Raster) (band : List ℚ)
    (hex : w.geojsonExists = true) (hp : w.geojsonParse = .ok b)
    (hf : b.features = f :: fs) (hc : f.countryCode = some (.str code))
    (hrf : w.rasterFileExists = true) (ho : w.openResult = .ok src)
    (hcrs : b.crs = src.crs) (hm : src.maskResult b.geoms = .ok band)
    (hpos : ∀ x ∈ band, x ≠ src.nodata.getD 0 → 0 ≤ x) :
    ∃ n, (calculate_population w).outputFileWritten = some n ∧ 0 ≤ n := by
  exact ⟨aggregate (src.nodata.getD 0) band,
    run_output_of_processing w b f fs code src band hex hp hf hc hrf ho hcrs hm,
    aggregate_nonneg (src.nodata.getD 0) band hpos⟩

/-- C5 witness: the amended theorem applied to the all-zero band
world. -/
theorem estimate_nonneg_when_cells_nonneg_witness :
    ∃ n, (calculate_population wC4).outputFileWritten = some n ∧ 0 ≤ n :=
  estimate_nonneg_when_cells_nonneg wC4 boundaryABW
    { countryCode := some (.str "ABW"), geom := rectInner } [] "ABW" rasterC4 [0, 0, 0]
    rfl rfl rfl rfl rfl rfl rfl rfl (by decide)

/-! Claim C6: CRS reconciliation. -/

/-- C6 counterexample: a boundary and a raster whose CRSs are both
undefined compare equal, so the run proceeds without any CRS failure and
writes an output — the claimed CrsError on an undefined CRS does not
exist in the script. -/
theorem undefined_crs_pair_not_rejected_counterexample :
    boundaryNoCrs.crs = none ∧ rasterC6.crs = none ∧
    (calculate_population wC6).outputFileWritten = some 2 ∧
    (calculate_population wC6).propagated = none := by
  norm_num [calculate_population, wC6, boundaryNoCrs, rasterC6, strBranch, dlStep,
    processAndCleanup, withBlock, reprojectStep, aggregate, truncTowardZero,
    dateProbeEvents, get_remote_file_date_formatted]

/-- C6 amended: when the two CRSs are defined and differ, the boundary is
reprojected to the raster CRS (the warning is printed and the raster is
left untouched: the same raster and its band feed the aggregation); when
the vector CRS is undefined and the raster CRS is defined, the
reprojection raises a generic error that the broad handler catches — the
run halts without the population output but with no dedicated CrsError;
two undefined CRSs compare equal and are not rejected at all. -/
theorem crs_mismatch_reprojects_vector (w : World) (b : Boundary) (f : Feature)
    (fs : List Feature) (code : String) (src : Raster)
    (hex : w.geojsonExists = true) (hp : w.geojsonParse = .ok b)
    (hf : b.features = f :: fs) (hc : f.countryCode = some (.str code))
    (hrf : w.rasterFileExists = true) (ho : w.openResult = .ok src) :
    (∀ cb cr, b.crs = some cb → src.crs = some cr → cb ≠ cr →
      (Event.printed .crsMismatchWarning ∈ (calculate_population w).events ∧
       ∀ band, src.maskResult b.geoms = .ok band →
         (calculate_population w).outputFileWritten
           = some (aggregate (src.nodata.getD 0) band))) ∧
    (∀ cr, b.crs = none → src.crs = some cr →
      ((calculate_population w).outputFileWritten = none ∧
       Event.printed .errUnexpected ∈ (calculate_population w).events)) := by
  rw [run_eq_strBranch w b f fs code hex hp hf hc]
  unfold strBranch
  dsimp only
  rw [dlStep_skips_download _ _ _ _ hrf]
  constructor
  · intro cb cr hb hs hne
    constructor
    · exact processAndCleanup_mem_of_withBlock w b _ _ src _ ho
        (withBlock_warning_mem b b.geoms src cb cr hb hs hne)
    · intro band hm
      exact processAndCleanup_mismatch w b _ _ src band cb cr ho hb hs hne hm
  · intro cr hb hs
    exact processAndCleanup_crs_none w b _ _ src cr ho hb hs

/-- C6 witness: the amended theorem applied to a genuine CRS mismatch,
where the run warns and still aggregates the band of the same raster. -/
theorem crs_mismatch_reprojects_vector_witness :
    Event.printed .crsMismatchWarning ∈ (calculate_population wC6b).events ∧
    (calculate_population wC6b).outputFileWritten = some 7 := by
  have h := crs_mismatch_reprojects_vector wC6b boundaryABW
    { countryCode := some (.str "ABW"), geom := rectInner } [] "ABW" rasterC6b
    rfl rfl rfl rfl rfl rfl
  have h1 := h.1 "EPSG:4326" "ESRI:54009" rfl rfl (by decide)
  refine ⟨h1.1, ?_⟩
  rw [h1.2 [7] rfl]
  norm_num [aggregate, truncTowardZero, rasterC6b]

/-! Claim C7: all-nodata clips. -/

/-- C7: when every cell of the clipped band equals the nodata sentinel,
the filter leaves nothing, the sum is zero, and the run writes the
integer 0 — the error branch is not taken and no fault occurs. -/
theorem all_nodata_clip_yields_zero (w : World) (b : Boundary)
    (f : Feature) (fs : List Feature) (code : String) (src : Raster) (band : List ℚ)
    (hex : w.geojsonExists = true) (hp : w.geojsonParse = .ok b)
    (hf : b.features = f :: fs) (hc : f.countryCode = some (.str code))
    (hrf : w.rasterFileExists = true) (ho : w.openResult = .ok src)
    (hcrs : b.crs = src.crs) (hm : src.maskResult b.geoms = .ok band)
    (hall : ∀ x ∈ band, x = src.nodata.getD 0) :
    (calculate_population w).outputFileWritten = some 0 := by
  rw [run_output_of_processing w b f fs code src band hex hp hf hc hrf ho hcrs hm]
  rw [aggregate_all_nodata (src.nodata.getD 0) band hall]

/-- C7 witness: the theorem applied to a clip whose two cells both equal
the nodata sentinel -1. -/
theorem all_nodata_clip_yields_zero_witness :
    (calculate_population wC7).outputFileWritten = some 0 :=
  all_nodata_clip_yields_zero wC7 boundaryABW
    { countryCode := some (.str "ABW"), geom := rectInner } [] "ABW" rasterC7 [-1, -1]
    rfl rfl rfl rfl rfl rfl rfl rfl (by decide)

/-! Claim C8: raster resource discipline. -/

/-- C8: on every run the open and close events of the raster source are
balanced — the with-statement closes the source on the success path and
on the raising path alike, and when the open itself fails neither event
occurs. -/
theorem raster_open_close_balanced (w : World) :
    ((calculate_population w).events.count Event.rasterOpened
      = (calculate_population w).events.count Event.rasterClosed) ∧
    (Event.rasterOpened ∈ (calculate_population w).events ↔
      Event.rasterClosed ∈ (calculate_population w).events) := by
  have hdp1 : Event.rasterOpened ∉ dateProbeEvents w.head := by
    intro h
    have := dateProbeEvents_sub w.head _ h
    simp at this
  have hdp2 : Event.rasterClosed ∉ dateProbeEvents w.head := by
    intro h
    have := dateProbeEvents_sub w.head _ h
    simp at this
  unfold calculate_population
  split
  · constructor <;> simp [List.count_cons]
  · split
    · constructor <;> simp [List.count_cons]
    · split
      · constructor <;> simp [List.count_cons]
      · split
        · constructor <;> simp [List.count_cons]
        · split
          · unfold strBranch
            dsimp only
            refine dlStep_balance _ _ _ _ ?_ ?_ <;> simp [hdp1, hdp2]
          · constructor <;> simp [List.count_cons]
          · constructor <;> simp [List.count_cons]

/-- C8 witness: the theorem applied to the concrete processing world. -/
theorem raster_open_close_balanced_witness :
    ((calculate_population wC2).events.count Event.rasterOpened
      = (calculate_population wC2).events.count Event.rasterClosed) ∧
    (Event.rasterOpened ∈ (calculate_population wC2).events ↔
      Event.rasterClosed ∈ (calculate_population wC2).events) :=
  raster_open_close_balanced wC2

/-! Claim C9: the download cache. -/

/-- C9: when the local raster file already exists the run never attempts
a download — whatever the resolved country code, the probe outcome or
the rest of the world — and, when the processing stage is reached with a
raster that opens, it clips that local file. -/
theorem existing_raster_skips_download (w : World)
    (hrf : w.rasterFileExists = true) :
    Event.downloadAttempted ∉ (calculate_population w).events ∧
    (∀ (b : Boundary) (f : Feature) (fs : List Feature) (code : String) (src : Raster),
      w.geojsonExists = true → w.geojsonParse = .ok b → b.features = f :: fs →
      f.countryCode = some (.str code) → w.openResult = .ok src →
      Event.rasterOpened ∈ (calculate_population w).events) := by
  have hdp : Event.downloadAttempted ∉ dateProbeEvents w.head := by
    intro h
    have := dateProbeEvents_sub w.head _ h
    simp at this
  constructor
  · unfold calculate_population
    split
    · simp
    · split
      · simp
      · split
        · simp
        · split
          · simp
          · split
            · unfold strBranch
              dsimp only
              rw [dlStep_skips_download _ _ _ _ hrf]
              refine processAndCleanup_no_download _ _ _ _ ?_
              simp [hdp]
            · simp
            · simp
  · intro b f fs code src hex hp hf hc ho
    rw [run_eq_strBranch w b f fs code hex hp hf hc]
    unfold strBranch
    dsimp only
    rw [dlStep_skips_download _ _ _ _ hrf]
    exact processAndCleanup_opened _ _ _ _ src ho

/-- C9 witness: the theorem applied to a world with a pre-existing local
raster file. -/
theorem existing_raster_skips_download_witness :
    Event.downloadAttempted ∉ (calculate_population wC2).events ∧
    Event.rasterOpened ∈ (calculate_population wC2).events := by
  have h := existing_raster_skips_download wC2 rfl
  exact ⟨h.1, h.2 boundaryABW { countryCode := some (.str "ABW"), geom := rectInner }
    [] "ABW" rasterC2 rfl rfl rfl rfl rfl⟩

/-! Claim C10: exception propagation. -/

/-- C10 counterexample: a boundary whose COUNTRY_CODE property is the
number 5 reaches the .upper() call of line 80 outside every handler: the
AttributeError propagates out of calculate_population. -/
theorem nonstring_code_propagates_counterexample :
    (calculate_population wC10).propagated = some PyExn.attributeError := by
  norm_num [calculate_population, wC10, boundaryNum]

/-- C10 amended: calculate_population returns normally — every failure
inside the guarded regions is caught or turned into an early return —
for every world whose first-feature COUNTRY_CODE value, when one is
reached, is a string; a non-string value instead propagates an
AttributeError from line 80. -/
theorem no_propagation_for_string_code (w : World)
    (h : (firstCode w).all JVal.isStr = true) :
    (calculate_population w).propagated = none := by
  unfold firstCode at h
  obtain ⟨ge, gp, hd, rf, dl, op⟩ := w
  dsimp only at h ⊢
  cases ge
  · rfl
  · cases gp with
    | error e => rfl
    | ok b =>
      dsimp only at h
      obtain ⟨feats, bcrs⟩ := b
      cases feats with
      | nil => rfl
      | cons f fs =>
        dsimp only at h
        obtain ⟨cc, g⟩ := f
        cases cc with
        | none => rfl
        | some v =>
          cases v with
          | str s =>
            show (strBranch _ _ s).propagated = none
            unfold strBranch
            dsimp only
            exact dlStep_propagated _ _ _ _
          | num n => simp [JVal.isStr] at h
          | null => simp [JVal.isStr] at h

/-- C10 witness: the amended theorem applied to the string-code world. -/
theorem no_propagation_for_string_code_witness :
    (calculate_population wC1).propagated = none :=
  no_propagation_for_string_code wC1 rfl
